import Mathlib

/-!
# keychain-cleaner: the certificate remover of `keychain-cleaner/main.c`

A shallow embedding of `main.c`.  The keychain (`Security.framework`) is an
external collaborator: it is a parameter `Store` that says how each call
answers.  Every function of the source becomes a function that returns its C
result together with the trace of the calls it made on the store and of the
`CFRelease`s it did, in program order.

Not traced: the `printf` output, and the query dictionary and label string of
`SecCertificateCopyCertificateByLabel` (lines 33-37, 50-51), which are built
and released locally on every path and never reach a branch.
-/

namespace KeychainCleaner

/-! ## Status codes -/

/-- The `OSStatus` result code of a store call (a signed 32-bit integer; the
program only compares it with the three constants below). -/
abbrev OSStatus := Int

/-- Modelled from the spec: the constant `errSecSuccess` of the platform header
`Security/Security.h`, which the source includes and the repository does not
hold.  It is the status of a call that succeeded (`ok` in §6); the program
only tests statuses for equality with it, and the number is the header's. -/
def errSecSuccess : OSStatus := 0

/-- Modelled from the spec: the constant `errSecItemNotFound` of the same
header, the store's distinct "not found" condition (§4.1, §4.2, §4.3); the
number is the header's. -/
def errSecItemNotFound : OSStatus := -25300

/-- Modelled from the spec: the constant `errSecWrPerm` of the same header,
the "write permission denied" status of a deletion (§4.3 step 5); the number
is the header's. -/
def errSecWrPerm : OSStatus := -61

/-! ## References handed out by the store -/

/-- A reference to a certificate record. -/
structure SecCertificateRef where
  addr : Nat
  deriving DecidableEq, Repr

/-- A reference to an identity (certificate paired with its private key). -/
structure SecIdentityRef where
  addr : Nat
  deriving DecidableEq, Repr

/-- A reference to a private key. -/
structure SecKeyRef where
  addr : Nat
  deriving DecidableEq, Repr

/-- A reference to a trust-settings array. -/
structure CFArrayRef where
  addr : Nat
  deriving DecidableEq, Repr

/-- An untyped CoreFoundation reference: the object together with its runtime
type, the one `CFGetTypeID` reports.  The casts of the source
(`(SecKeychainItemRef)privateKey`, `(SecCertificateRef)item`) are the
constructors. -/
inductive CFTypeRef where
  | certificate (c : SecCertificateRef)
  | identity (i : SecIdentityRef)
  | key (k : SecKeyRef)
  | array (a : CFArrayRef)
  | other (addr : Nat)
  deriving DecidableEq, Repr

/-- The three trust-settings domains. -/
inductive SecTrustSettingsDomain where
  | kSecTrustSettingsDomainUser
  | kSecTrustSettingsDomainAdmin
  | kSecTrustSettingsDomainSystem
  deriving DecidableEq, Repr

open SecTrustSettingsDomain

/-! ## The store and the trace of a run -/

/-- Modelled from the spec: the answer of a store call that hands a reference
back through an out-parameter (`find`, `derive-identity`,
`identity-private-key` of §6), whose declaration is in the platform header:
either the status is `errSecSuccess` and the out-parameter holds a reference,
or the status is a failure code and the out-parameter keeps the `NULL` the
source initialised it with. -/
inductive Reply (α : Type) where
  | ok (value : α)
  | error (status : OSStatus) (failed : status ≠ errSecSuccess)

/-- The `OSStatus` a reply carries. -/
def Reply.status {α : Type} : Reply α → OSStatus
  | .ok _ => errSecSuccess
  | .error status _ => status

/-- The out-parameter after the call: the reference, or `NULL`. -/
def Reply.out {α : Type} : Reply α → Option α
  | .ok value => some value
  | .error _ _ => none

/-- A behaviour of the store: what each call the program can make answers.
In one run every call is made at most once with given arguments (the trust
calls once a domain, `SecKeychainItemDelete` once on the key and once on the
certificate), so a store whose answers depend on earlier calls is covered by
the answers it gives in that run.  `SecTrustSettingsCopyTrustSettings` answers
a status together with the out-parameter, which the source tests for `NULL`
independently of the status (line 90). -/
structure Store where
  SecItemCopyMatching : String → Reply CFTypeRef
  SecTrustSettingsCopyTrustSettings :
    SecCertificateRef → SecTrustSettingsDomain → OSStatus × Option CFArrayRef
  SecTrustSettingsRemoveTrustSettings :
    SecCertificateRef → SecTrustSettingsDomain → OSStatus
  SecIdentityCreateWithCertificate : SecCertificateRef → Reply SecIdentityRef
  SecIdentityCopyPrivateKey : SecIdentityRef → Reply SecKeyRef
  SecKeychainItemDelete : CFTypeRef → OSStatus

/-- One step of a run: a call on the store with its arguments and what the
store answered (status, and the reference it handed back if any), or a
`CFRelease`. -/
inductive Event where
  | SecItemCopyMatching (certLabel : String) (status : OSStatus)
      (item : Option CFTypeRef)
  | SecTrustSettingsCopyTrustSettings (certificate : SecCertificateRef)
      (domain : SecTrustSettingsDomain) (status : OSStatus)
      (trustSettings : Option CFArrayRef)
  | SecTrustSettingsRemoveTrustSettings (certificate : SecCertificateRef)
      (domain : SecTrustSettingsDomain) (status : OSStatus)
  | SecIdentityCreateWithCertificate (certificate : SecCertificateRef)
      (status : OSStatus) (identity : Option SecIdentityRef)
  | SecIdentityCopyPrivateKey (identity : SecIdentityRef) (status : OSStatus)
      (privateKey : Option SecKeyRef)
  | SecKeychainItemDelete (item : CFTypeRef) (status : OSStatus)
  | CFRelease (ref : CFTypeRef)
  deriving DecidableEq, Repr

/-! ## The program -/

/-- The function `SecCertificateCopyCertificateByLabel` (lines 27-66): the
certificate with the input label, or `NULL` (`none`).  The test of line 52 is
`status != errSecSuccess || SecCertificateGetTypeID() != CFGetTypeID(item)`;
both `return NULL` paths release nothing. -/
def SecCertificateCopyCertificateByLabel (S : Store) (certLabel : String) :
    Option SecCertificateRef × List Event :=
  let reply := S.SecItemCopyMatching certLabel
  let trace := [Event.SecItemCopyMatching certLabel reply.status reply.out]
  match reply with
  | .error _ _ => (none, trace)
  | .ok (.certificate item) => (some item, trace)
  | .ok _ => (none, trace)

/-- The `domains` table of `deleteTrustIfExists` (line 70). -/
def domains : List SecTrustSettingsDomain :=
  [kSecTrustSettingsDomainSystem, kSecTrustSettingsDomainAdmin,
   kSecTrustSettingsDomainUser]

/-- The body of the loop of `deleteTrustIfExists` (lines 75-93) for one
domain. -/
def deleteTrustIfExistsBody (S : Store) (certificate : SecCertificateRef)
    (domain : SecTrustSettingsDomain) : List Event :=
  let (status, trustSettings) :=
    S.SecTrustSettingsCopyTrustSettings certificate domain
  [Event.SecTrustSettingsCopyTrustSettings certificate domain status
    trustSettings]
  ++ (if status ≠ errSecItemNotFound then
        [Event.SecTrustSettingsRemoveTrustSettings certificate domain
          (S.SecTrustSettingsRemoveTrustSettings certificate domain)]
      else [])
  ++ (match trustSettings with
      | some array => [Event.CFRelease (.array array)]
      | none => [])

/-- The loop `for (int i = 0; i < 3; ++i)` of `deleteTrustIfExists` (line 73),
run over the entries of `domains` still to visit. -/
def deleteTrustIfExistsLoop (S : Store) (certificate : SecCertificateRef) :
    List SecTrustSettingsDomain → List Event
  | [] => []
  | domain :: rest =>
    deleteTrustIfExistsBody S certificate domain
      ++ deleteTrustIfExistsLoop S certificate rest

/-- The function `deleteTrustIfExists` (lines 68-95). -/
def deleteTrustIfExists (S : Store) (certificate : SecCertificateRef) :
    List Event :=
  deleteTrustIfExistsLoop S certificate domains

/-- The end of `deleteCertificate` (lines 130-145): delete the certificate
itself. -/
def deleteCertificateItself (S : Store) (certificate : SecCertificateRef) :
    Bool × List Event :=
  let status := S.SecKeychainItemDelete (.certificate certificate)
  let trace := [Event.SecKeychainItemDelete (.certificate certificate) status]
  if status ≠ errSecSuccess then
    if status = errSecWrPerm then (false, trace)
    else (false, trace)
  else (true, trace)

/-- The middle of `deleteCertificate` (lines 102-131), after the trust
settings: the identity, the private key, then the certificate itself. -/
def deleteKeyAndCertificate (S : Store) (certificate : SecCertificateRef) :
    Bool × List Event :=
  let reply := S.SecIdentityCreateWithCertificate certificate
  let trace :=
    [Event.SecIdentityCreateWithCertificate certificate reply.status reply.out]
  if reply.status ≠ errSecItemNotFound then
    match reply with
    | .error _ _ => (false, trace)
    | .ok identity =>
      let keyReply := S.SecIdentityCopyPrivateKey identity
      let trace := trace ++
        [Event.SecIdentityCopyPrivateKey identity keyReply.status keyReply.out,
         Event.CFRelease (.identity identity)]
      match keyReply with
      | .ok privateKey =>
        let status := S.SecKeychainItemDelete (.key privateKey)
        let trace := trace ++
          [Event.SecKeychainItemDelete (.key privateKey) status,
           Event.CFRelease (.key privateKey)]
        if status ≠ errSecSuccess then (false, trace)
        else
          let (result, rest) := deleteCertificateItself S certificate
          (result, trace ++ rest)
      | .error _ _ =>
        let (result, rest) := deleteCertificateItself S certificate
        (result, trace ++ rest)
  else
    let (result, rest) := deleteCertificateItself S certificate
    (result, trace ++ rest)

/-- The function `deleteCertificate` (lines 97-146): the trust settings, then
the key and the certificate. -/
def deleteCertificate (S : Store) (certificate : SecCertificateRef) :
    Bool × List Event :=
  let trust := deleteTrustIfExists S certificate
  let (result, rest) := deleteKeyAndCertificate S certificate
  (result, trust ++ rest)

/-- The function `main` (lines 163-189): the exit code and the trace of the
run.  `argv` counts the program name, and `argc` is its length. -/
def main (S : Store) (argv : List String) : Int × List Event :=
  let argc := argv.length
  if h : argc ≠ 2 then (1, [])
  else
    let (certificate, lookup) :=
      SecCertificateCopyCertificateByLabel S (argv.get ⟨1, by omega⟩)
    match certificate with
    | none => (0, lookup)
    | some certificate =>
      let (deletionSuccess, deletion) := deleteCertificate S certificate
      let trace :=
        lookup ++ deletion ++ [Event.CFRelease (.certificate certificate)]
      if !deletionSuccess then (1, trace) else (0, trace)

/-! ## Vocabulary for the traces -/

/-- A trust-settings step: a query, a removal, or the release of the array a
query handed back. -/
def Event.isTrustStep : Event → Bool
  | .SecTrustSettingsCopyTrustSettings _ _ _ _ => true
  | .SecTrustSettingsRemoveTrustSettings _ _ _ => true
  | .CFRelease (.array _) => true
  | _ => false

/-- An attempt to remove trust settings. -/
def Event.isTrustRemoval : Event → Bool
  | .SecTrustSettingsRemoveTrustSettings _ _ _ => true
  | _ => false

/-- An attempt to extract the private key of an identity. -/
def Event.isKeyExtraction : Event → Bool
  | .SecIdentityCopyPrivateKey _ _ _ => true
  | _ => false

/-- An attempt to delete a private key. -/
def Event.isKeyDeletion : Event → Bool
  | .SecKeychainItemDelete (.key _) _ => true
  | _ => false

/-- An attempt to delete a certificate. -/
def Event.isCertificateDeletion : Event → Bool
  | .SecKeychainItemDelete (.certificate _) _ => true
  | _ => false

/-- A call that changes the store: a trust-settings removal or a deletion. -/
def Event.isMutation : Event → Bool
  | .SecTrustSettingsRemoveTrustSettings _ _ _ => true
  | .SecKeychainItemDelete _ _ => true
  | _ => false

/-- An identity derivation that answered a status other than success or
not-found. -/
def Event.isFailedIdentity : Event → Bool
  | .SecIdentityCreateWithCertificate _ status _ =>
    decide (status ≠ errSecSuccess ∧ status ≠ errSecItemNotFound)
  | _ => false

/-- A private-key deletion that answered a failure status. -/
def Event.isFailedKeyDeletion : Event → Bool
  | .SecKeychainItemDelete (.key _) status => decide (status ≠ errSecSuccess)
  | _ => false

/-- A certificate deletion that answered a failure status. -/
def Event.isFailedCertificateDeletion : Event → Bool
  | .SecKeychainItemDelete (.certificate _) status =>
    decide (status ≠ errSecSuccess)
  | _ => false

/-- One of the three failures of §4.3: identity derivation, private-key
deletion, certificate deletion. -/
def Event.isRemovalFailure (e : Event) : Bool :=
  e.isFailedIdentity || e.isFailedKeyDeletion || e.isFailedCertificateDeletion

/-- The domain a trust-settings query asks about. -/
def Event.queriedDomain : Event → Option SecTrustSettingsDomain
  | .SecTrustSettingsCopyTrustSettings _ domain _ _ => some domain
  | _ => none

/-- The domain a trust-settings removal is attempted for. -/
def Event.removedDomain : Event → Option SecTrustSettingsDomain
  | .SecTrustSettingsRemoveTrustSettings _ domain _ => some domain
  | _ => none

/-- A call of the removal steps of §4.3: identity derivation, key extraction,
key or certificate deletion. -/
def Event.isRemovalCall : Event → Bool
  | .SecIdentityCreateWithCertificate _ _ _ => true
  | .SecIdentityCopyPrivateKey _ _ _ => true
  | .SecKeychainItemDelete _ _ => true
  | _ => false

/-- The reference the store handed back at this step, if any. -/
def Event.returned : Event → Option CFTypeRef
  | .SecItemCopyMatching _ _ item => item
  | .SecTrustSettingsCopyTrustSettings _ _ _ (some array) => some (.array array)
  | .SecIdentityCreateWithCertificate _ _ (some identity) =>
    some (.identity identity)
  | .SecIdentityCopyPrivateKey _ _ (some privateKey) => some (.key privateKey)
  | _ => none

/-- The reference this step releases, if it is a `CFRelease`. -/
def Event.released : Event → Option CFTypeRef
  | .CFRelease ref => some ref
  | _ => none

/-! ## Concrete stores -/

/-- The certificate the concrete stores file under the label `TestCert`. -/
def testCert : SecCertificateRef := ⟨1⟩

/-- A store holding `TestCert` with no trust settings and no private key,
where every deletion succeeds. -/
def storeBareCertificate : Store where
  SecItemCopyMatching := fun _ => .ok (.certificate testCert)
  SecTrustSettingsCopyTrustSettings := fun _ _ => (errSecItemNotFound, none)
  SecTrustSettingsRemoveTrustSettings := fun _ _ => errSecSuccess
  SecIdentityCreateWithCertificate := fun _ =>
    .error errSecItemNotFound (by decide)
  SecIdentityCopyPrivateKey := fun _ => .error errSecItemNotFound (by decide)
  SecKeychainItemDelete := fun _ => errSecSuccess

/-- The store `storeBareCertificate` seen by a caller without write
permission: deletions answer `errSecWrPerm`. -/
def storeReadOnly : Store :=
  { storeBareCertificate with SecKeychainItemDelete := fun _ => errSecWrPerm }

/-- A store holding `TestCert` with admin trust settings and a private key,
where everything succeeds. -/
def storeWithKey : Store where
  SecItemCopyMatching := fun _ => .ok (.certificate testCert)
  SecTrustSettingsCopyTrustSettings := fun _ domain =>
    if domain = kSecTrustSettingsDomainAdmin then (errSecSuccess, some ⟨7⟩)
    else (errSecItemNotFound, none)
  SecTrustSettingsRemoveTrustSettings := fun _ _ => errSecSuccess
  SecIdentityCreateWithCertificate := fun _ => .ok ⟨2⟩
  SecIdentityCopyPrivateKey := fun _ => .ok ⟨3⟩
  SecKeychainItemDelete := fun _ => errSecSuccess

/-- The store `storeWithKey` when every trust-settings query and removal fails
with status `-50`. -/
def storeWithKeyTrustFailing : Store :=
  { storeWithKey with
    SecTrustSettingsCopyTrustSettings := fun _ _ => (-50, none)
    SecTrustSettingsRemoveTrustSettings := fun _ _ => -50 }

/-- The store `storeWithKey` when the deletion of a private key fails (status
`-61`) and the deletion of anything else succeeds. -/
def storeKeyUndeletable : Store :=
  { storeWithKey with
    SecKeychainItemDelete := fun item =>
      match item with
      | .key _ => errSecWrPerm
      | _ => errSecSuccess }

/-- The store `storeWithKey` when the identity derivation fails with status
`-50`. -/
def storeIdentityFailing : Store :=
  { storeWithKey with
    SecIdentityCreateWithCertificate := fun _ => .error (-50) (by decide) }

/-- A store whose lookup answers success with an item that is not a
certificate (a key). -/
def storeWrongType : Store :=
  { storeWithKey with SecItemCopyMatching := fun _ => .ok (.key ⟨9⟩) }

/-! ## The parts of a run in closed form -/

theorem deleteTrustIfExistsBody_isTrustStep (S : Store) (c : SecCertificateRef)
    (d : SecTrustSettingsDomain) :
    ∀ e ∈ deleteTrustIfExistsBody S c d, e.isTrustStep = true := by
  intro e he
  unfold deleteTrustIfExistsBody at he
  rcases hq : S.SecTrustSettingsCopyTrustSettings c d with ⟨status, arr⟩
  rw [hq] at he
  cases arr <;> by_cases hs : status = errSecItemNotFound <;>
    simp [hs] at he <;> rcases he with h | h | h <;> simp_all [Event.isTrustStep]

theorem deleteTrustIfExists_isTrustStep (S : Store) (c : SecCertificateRef) :
    ∀ e ∈ deleteTrustIfExists S c, e.isTrustStep = true := by
  intro e he
  simp only [deleteTrustIfExists, domains, deleteTrustIfExistsLoop,
    List.mem_append, List.append_nil] at he
  rcases he with h | h | h <;>
    exact deleteTrustIfExistsBody_isTrustStep S c _ e h

theorem deleteTrustIfExists_filter_nil (S : Store) (c : SecCertificateRef)
    (p : Event → Bool) (hp : ∀ e, e.isTrustStep = true → p e = false) :
    (deleteTrustIfExists S c).filter p = [] := by
  rw [List.filter_eq_nil_iff]
  intro e he
  simp [hp e (deleteTrustIfExists_isTrustStep S c e he)]

theorem isTrustStep_not_removalFailure (e : Event) (h : e.isTrustStep = true) :
    e.isRemovalFailure = false := by
  cases e <;> simp_all [Event.isTrustStep, Event.isRemovalFailure,
    Event.isFailedIdentity, Event.isFailedKeyDeletion,
    Event.isFailedCertificateDeletion]

/-- Lines 130-145 in closed form. -/
theorem deleteCertificateItself_eq (S : Store) (c : SecCertificateRef) :
    deleteCertificateItself S c =
      (decide (S.SecKeychainItemDelete (.certificate c) = errSecSuccess),
       [Event.SecKeychainItemDelete (.certificate c)
          (S.SecKeychainItemDelete (.certificate c))]) := by
  unfold deleteCertificateItself
  by_cases hd : S.SecKeychainItemDelete (.certificate c) = errSecSuccess <;>
    simp [hd]

/-- The identity derivation fails with a status other than not-found. -/
theorem deleteKeyAndCertificate_identity_failed (S : Store)
    (c : SecCertificateRef) (s : OSStatus) (hs : s ≠ errSecSuccess)
    (hi : S.SecIdentityCreateWithCertificate c = .error s hs)
    (hnf : s ≠ errSecItemNotFound) :
    deleteKeyAndCertificate S c =
      (false, [Event.SecIdentityCreateWithCertificate c s none]) := by
  unfold deleteKeyAndCertificate
  simp [hi, Reply.status, Reply.out, hnf]

/-- The identity derivation reports not-found. -/
theorem deleteKeyAndCertificate_no_identity (S : Store)
    (c : SecCertificateRef) (hs : errSecItemNotFound ≠ errSecSuccess)
    (hi : S.SecIdentityCreateWithCertificate c = .error errSecItemNotFound hs) :
    deleteKeyAndCertificate S c =
      (decide (S.SecKeychainItemDelete (.certificate c) = errSecSuccess),
       [Event.SecIdentityCreateWithCertificate c errSecItemNotFound none,
        Event.SecKeychainItemDelete (.certificate c)
          (S.SecKeychainItemDelete (.certificate c))]) := by
  unfold deleteKeyAndCertificate
  simp [hi, Reply.status, Reply.out, deleteCertificateItself_eq]

/-- The identity is derived and the private key cannot be extracted. -/
theorem deleteKeyAndCertificate_no_key (S : Store) (c : SecCertificateRef)
    (i : SecIdentityRef) (s : OSStatus) (hs : s ≠ errSecSuccess)
    (hi : S.SecIdentityCreateWithCertificate c = .ok i)
    (hk : S.SecIdentityCopyPrivateKey i = .error s hs) :
    deleteKeyAndCertificate S c =
      (decide (S.SecKeychainItemDelete (.certificate c) = errSecSuccess),
       [Event.SecIdentityCreateWithCertificate c errSecSuccess (some i),
        Event.SecIdentityCopyPrivateKey i s none,
        Event.CFRelease (.identity i),
        Event.SecKeychainItemDelete (.certificate c)
          (S.SecKeychainItemDelete (.certificate c))]) := by
  unfold deleteKeyAndCertificate
  simp [hi, hk, Reply.status, Reply.out, deleteCertificateItself_eq,
    errSecSuccess, errSecItemNotFound]

/-- The private key is extracted and its deletion fails. -/
theorem deleteKeyAndCertificate_key_failed (S : Store) (c : SecCertificateRef)
    (i : SecIdentityRef) (k : SecKeyRef)
    (hi : S.SecIdentityCreateWithCertificate c = .ok i)
    (hk : S.SecIdentityCopyPrivateKey i = .ok k)
    (hd : S.SecKeychainItemDelete (.key k) ≠ errSecSuccess) :
    deleteKeyAndCertificate S c =
      (false,
       [Event.SecIdentityCreateWithCertificate c errSecSuccess (some i),
        Event.SecIdentityCopyPrivateKey i errSecSuccess (some k),
        Event.CFRelease (.identity i),
        Event.SecKeychainItemDelete (.key k) (S.SecKeychainItemDelete (.key k)),
        Event.CFRelease (.key k)]) := by
  unfold deleteKeyAndCertificate
  simp [hi, hk, hd, Reply.status, Reply.out]
  simp [errSecSuccess, errSecItemNotFound]

/-- The private key is extracted and deleted. -/
theorem deleteKeyAndCertificate_key_deleted (S : Store) (c : SecCertificateRef)
    (i : SecIdentityRef) (k : SecKeyRef)
    (hi : S.SecIdentityCreateWithCertificate c = .ok i)
    (hk : S.SecIdentityCopyPrivateKey i = .ok k)
    (hd : S.SecKeychainItemDelete (.key k) = errSecSuccess) :
    deleteKeyAndCertificate S c =
      (decide (S.SecKeychainItemDelete (.certificate c) = errSecSuccess),
       [Event.SecIdentityCreateWithCertificate c errSecSuccess (some i),
        Event.SecIdentityCopyPrivateKey i errSecSuccess (some k),
        Event.CFRelease (.identity i),
        Event.SecKeychainItemDelete (.key k) errSecSuccess,
        Event.CFRelease (.key k),
        Event.SecKeychainItemDelete (.certificate c)
          (S.SecKeychainItemDelete (.certificate c))]) := by
  unfold deleteKeyAndCertificate
  simp [hi, hk, hd, Reply.status, Reply.out, deleteCertificateItself_eq]
  simp [errSecSuccess, errSecItemNotFound]

/-- The result of the identity, key and certificate steps is `false` exactly
when one of them failed. -/
theorem deleteKeyAndCertificate_false_iff (S : Store) (c : SecCertificateRef) :
    (deleteKeyAndCertificate S c).1 = false ↔
      ∃ e ∈ (deleteKeyAndCertificate S c).2, e.isRemovalFailure = true := by
  cases hi : S.SecIdentityCreateWithCertificate c with
  | error s hs =>
    by_cases hnf : s = errSecItemNotFound
    · subst hnf
      rw [deleteKeyAndCertificate_no_identity S c hs hi]
      simp [Event.isRemovalFailure, Event.isFailedIdentity,
        Event.isFailedKeyDeletion, Event.isFailedCertificateDeletion]
    · rw [deleteKeyAndCertificate_identity_failed S c s hs hi hnf]
      simp [Event.isRemovalFailure, Event.isFailedIdentity,
        Event.isFailedKeyDeletion, Event.isFailedCertificateDeletion, hs, hnf]
  | ok i =>
    cases hk : S.SecIdentityCopyPrivateKey i with
    | error s hs =>
      rw [deleteKeyAndCertificate_no_key S c i s hs hi hk]
      simp [Event.isRemovalFailure, Event.isFailedIdentity,
        Event.isFailedKeyDeletion, Event.isFailedCertificateDeletion]
    | ok k =>
      by_cases hkd : S.SecKeychainItemDelete (.key k) = errSecSuccess
      · rw [deleteKeyAndCertificate_key_deleted S c i k hi hk hkd]
        simp [Event.isRemovalFailure, Event.isFailedIdentity,
          Event.isFailedKeyDeletion, Event.isFailedCertificateDeletion]
      · rw [deleteKeyAndCertificate_key_failed S c i k hi hk hkd]
        simp [Event.isRemovalFailure, Event.isFailedIdentity,
          Event.isFailedKeyDeletion, Event.isFailedCertificateDeletion, hkd]

/-! ## Exit code (C1, C4, C7) -/

/-- No trust-settings step is one of the three failures of §4.3. -/
theorem deleteCertificate_false_iff (S : Store) (c : SecCertificateRef) :
    (deleteCertificate S c).1 = false ↔
      ∃ e ∈ (deleteCertificate S c).2, e.isRemovalFailure = true := by
  have ht := deleteTrustIfExists_isTrustStep S c
  have hk := deleteKeyAndCertificate_false_iff S c
  simp only [deleteCertificate, List.mem_append]
  rw [hk]
  constructor
  · rintro ⟨e, he, hf⟩
    exact ⟨e, Or.inr he, hf⟩
  · rintro ⟨e, he | he, hf⟩
    · have := isTrustStep_not_removalFailure e (ht e he)
      rw [this] at hf
      cases hf
    · exact ⟨e, he, hf⟩

/-- The lookup in closed form: it resolves a certificate exactly when the
store answers success with an item of certificate type. -/
theorem SecCertificateCopyCertificateByLabel_eq_some (S : Store)
    (label : String) (c : SecCertificateRef) :
    (SecCertificateCopyCertificateByLabel S label).1 = some c ↔
      S.SecItemCopyMatching label = .ok (.certificate c) := by
  unfold SecCertificateCopyCertificateByLabel
  cases hr : S.SecItemCopyMatching label with
  | error s hs => simp
  | ok item => cases item <;> simp

/-- The lookup when the store answers a certificate. -/
theorem SecCertificateCopyCertificateByLabel_resolved (S : Store)
    (label : String) (c : SecCertificateRef)
    (hc : S.SecItemCopyMatching label = .ok (.certificate c)) :
    SecCertificateCopyCertificateByLabel S label =
      (some c, [Event.SecItemCopyMatching label errSecSuccess
                  (some (.certificate c))]) := by
  simp [SecCertificateCopyCertificateByLabel, hc, Reply.status, Reply.out]

/-- The lookup when the store answers anything but a certificate. -/
theorem SecCertificateCopyCertificateByLabel_unresolved (S : Store)
    (label : String)
    (hc : ∀ c, S.SecItemCopyMatching label ≠ .ok (.certificate c)) :
    SecCertificateCopyCertificateByLabel S label =
      (none, [Event.SecItemCopyMatching label
                (S.SecItemCopyMatching label).status
                (S.SecItemCopyMatching label).out]) := by
  unfold SecCertificateCopyCertificateByLabel
  cases hr : S.SecItemCopyMatching label with
  | error s hs => simp
  | ok item =>
    cases item with
    | certificate c => exact absurd hr (hc c)
    | _ => simp

/-- A run of `main` with one label argument whose lookup resolves `c`. -/
theorem main_resolved (S : Store) (prog label : String) (c : SecCertificateRef)
    (hc : S.SecItemCopyMatching label = .ok (.certificate c)) :
    main S [prog, label] =
      (if (deleteCertificate S c).1 = true then 0 else 1,
       Event.SecItemCopyMatching label errSecSuccess (some (.certificate c)) ::
         ((deleteCertificate S c).2 ++ [Event.CFRelease (.certificate c)])) := by
  have hl := SecCertificateCopyCertificateByLabel_resolved S label c hc
  cases hd : (deleteCertificate S c).1 <;> simp [main, hl, hd]

/-- A run of `main` with one label argument whose lookup resolves nothing. -/
theorem main_unresolved (S : Store) (prog label : String)
    (hc : ∀ c, S.SecItemCopyMatching label ≠ .ok (.certificate c)) :
    main S [prog, label] =
      (0, [Event.SecItemCopyMatching label (S.SecItemCopyMatching label).status
            (S.SecItemCopyMatching label).out]) := by
  have hl := SecCertificateCopyCertificateByLabel_unresolved S label hc
  simp [main, hl]

/-- Claim C1: in every invocation of `main` with exactly one label argument,
whatever the store answers, the exit code is 0 when the lookup resolves no
certificate and when `deleteCertificate` returns true, and it is 1 exactly
when a certificate was resolved and `deleteCertificate` ran into a failed
identity derivation (a status other than success or not-found), a failed
private-key deletion or a failed certificate deletion. -/
theorem main_exit_code (S : Store) (prog label : String) :
    ((main S [prog, label]).1 = 0 ∨ (main S [prog, label]).1 = 1) ∧
    ((SecCertificateCopyCertificateByLabel S label).1 = none →
        (main S [prog, label]).1 = 0) ∧
    (∀ c, (SecCertificateCopyCertificateByLabel S label).1 = some c →
        (deleteCertificate S c).1 = true → (main S [prog, label]).1 = 0) ∧
    ((main S [prog, label]).1 = 1 ↔
      ∃ c, (SecCertificateCopyCertificateByLabel S label).1 = some c ∧
        ∃ e ∈ (deleteCertificate S c).2,
          e.isFailedIdentity = true ∨ e.isFailedKeyDeletion = true ∨
            e.isFailedCertificateDeletion = true) := by
  have hfail : ∀ c, (deleteCertificate S c).1 = false ↔
      ∃ e ∈ (deleteCertificate S c).2,
          e.isFailedIdentity = true ∨ e.isFailedKeyDeletion = true ∨
            e.isFailedCertificateDeletion = true := by
    intro c
    rw [deleteCertificate_false_iff]
    simp only [Event.isRemovalFailure, Bool.or_eq_true, or_assoc]
  by_cases hres : ∃ c, S.SecItemCopyMatching label = .ok (.certificate c)
  · obtain ⟨c, hc⟩ := hres
    have hl := SecCertificateCopyCertificateByLabel_resolved S label c hc
    rw [main_resolved S prog label c hc, hl]
    refine ⟨?_, by simp, ?_, ?_⟩
    · cases hd : (deleteCertificate S c).1 <;> simp
    · intro c' hc' hd
      simp only [Option.some.injEq] at hc'
      subst hc'
      simp [hd]
    · constructor
      · intro h1
        refine ⟨c, rfl, (hfail c).1 ?_⟩
        cases hd : (deleteCertificate S c).1
        · rfl
        · simp [hd] at h1
      · rintro ⟨c', hc', hf⟩
        simp only [Option.some.injEq] at hc'
        subst hc'
        simp [(hfail c).2 hf]
  · have hc : ∀ c, S.SecItemCopyMatching label ≠ .ok (.certificate c) :=
      fun c h => hres ⟨c, h⟩
    have hl := SecCertificateCopyCertificateByLabel_unresolved S label hc
    rw [main_unresolved S prog label hc, hl]
    simp

/-- Claim C7: with an argument count other than 2 (the program name counted)
`main` returns 1 and its trace is empty: no call on the store at all. -/
theorem main_wrong_argument_count (S : Store) (argv : List String)
    (hargc : argv.length ≠ 2) : main S argv = (1, []) := by
  simp [main, hargc]

/-- Claim C4: when the lookup does not resolve a certificate (the store
answers not-found, another failure status, or an item that is not a
certificate), `main` exits 0 and its trace is the lookup alone, so it holds
no trust-settings removal and no deletion. -/
theorem main_lookup_unresolved (S : Store) (prog label : String)
    (hno : (S.SecItemCopyMatching label).status = errSecItemNotFound ∨
      (S.SecItemCopyMatching label).status ≠ errSecSuccess ∨
      ∃ item, S.SecItemCopyMatching label = .ok item ∧
        ∀ c, item ≠ .certificate c) :
    (main S [prog, label]).1 = 0 ∧
    (main S [prog, label]).2 =
      [Event.SecItemCopyMatching label (S.SecItemCopyMatching label).status
        (S.SecItemCopyMatching label).out] ∧
    ∀ e ∈ (main S [prog, label]).2, e.isMutation = false := by
  have hc : ∀ c, S.SecItemCopyMatching label ≠ .ok (.certificate c) := by
    intro c h
    rw [h] at hno
    rcases hno with h1 | h1 | ⟨item, h1, h2⟩
    · simp [Reply.status, errSecSuccess, errSecItemNotFound] at h1
    · simp [Reply.status] at h1
    · simp only [Reply.ok.injEq] at h1
      exact h2 c h1.symm
  rw [main_unresolved S prog label hc]
  simp [Event.isMutation]

/-! ## Trust-settings cleanup (C5) -/

theorem deleteTrustIfExistsBody_queried (S : Store) (c : SecCertificateRef)
    (d : SecTrustSettingsDomain) :
    (deleteTrustIfExistsBody S c d).filterMap Event.queriedDomain = [d] := by
  unfold deleteTrustIfExistsBody
  rcases hq : S.SecTrustSettingsCopyTrustSettings c d with ⟨status, arr⟩
  cases arr <;> by_cases hs : status = errSecItemNotFound <;>
    simp [hs, List.filterMap_cons, Event.queriedDomain]

theorem deleteTrustIfExistsBody_removed (S : Store) (c : SecCertificateRef)
    (d : SecTrustSettingsDomain) :
    (deleteTrustIfExistsBody S c d).filterMap Event.removedDomain =
      if (S.SecTrustSettingsCopyTrustSettings c d).1 ≠ errSecItemNotFound
      then [d] else [] := by
  unfold deleteTrustIfExistsBody
  rcases hq : S.SecTrustSettingsCopyTrustSettings c d with ⟨status, arr⟩
  cases arr <;> by_cases hs : status = errSecItemNotFound <;>
    simp [hs, List.filterMap_cons, Event.removedDomain]

theorem deleteTrustIfExists_queried (S : Store) (c : SecCertificateRef) :
    (deleteTrustIfExists S c).filterMap Event.queriedDomain =
      [kSecTrustSettingsDomainSystem, kSecTrustSettingsDomainAdmin,
       kSecTrustSettingsDomainUser] := by
  simp [deleteTrustIfExists, domains, deleteTrustIfExistsLoop,
    List.filterMap_append, deleteTrustIfExistsBody_queried]

theorem deleteTrustIfExists_removed (S : Store) (c : SecCertificateRef) :
    (deleteTrustIfExists S c).filterMap Event.removedDomain =
      [kSecTrustSettingsDomainSystem, kSecTrustSettingsDomainAdmin,
       kSecTrustSettingsDomainUser].filter
        (fun D => decide
          ((S.SecTrustSettingsCopyTrustSettings c D).1 ≠ errSecItemNotFound)) := by
  simp only [deleteTrustIfExists, domains, deleteTrustIfExistsLoop,
    List.filterMap_append, deleteTrustIfExistsBody_removed, List.append_nil,
    List.filterMap_nil]
  by_cases h1 : (S.SecTrustSettingsCopyTrustSettings c
      kSecTrustSettingsDomainSystem).1 = errSecItemNotFound <;>
  by_cases h2 : (S.SecTrustSettingsCopyTrustSettings c
      kSecTrustSettingsDomainAdmin).1 = errSecItemNotFound <;>
  by_cases h3 : (S.SecTrustSettingsCopyTrustSettings c
      kSecTrustSettingsDomainUser).1 = errSecItemNotFound <;>
    simp [h1, h2, h3, List.filter_cons]

/-- Claim C5: `deleteTrustIfExists` queries the trust settings of exactly the
three domains system, admin, user, in that order, and the domains it attempts
a removal for are, in the same order, exactly those whose query did not
answer not-found, each once: which removals are attempted depends on no
removal status and on no other domain. -/
theorem deleteTrustIfExists_domains (S : Store) (c : SecCertificateRef) :
    (deleteTrustIfExists S c).filterMap Event.queriedDomain =
      [kSecTrustSettingsDomainSystem, kSecTrustSettingsDomainAdmin,
       kSecTrustSettingsDomainUser] ∧
    (deleteTrustIfExists S c).filterMap Event.removedDomain =
      [kSecTrustSettingsDomainSystem, kSecTrustSettingsDomainAdmin,
       kSecTrustSettingsDomainUser].filter
        (fun D => decide
          ((S.SecTrustSettingsCopyTrustSettings c D).1 ≠ errSecItemNotFound)) ∧
    ∀ D, ((deleteTrustIfExists S c).filterMap Event.removedDomain).count D =
      if (S.SecTrustSettingsCopyTrustSettings c D).1 ≠ errSecItemNotFound
      then 1 else 0 := by
  refine ⟨deleteTrustIfExists_queried S c, deleteTrustIfExists_removed S c, ?_⟩
  intro D
  rw [deleteTrustIfExists_removed]
  by_cases h1 : (S.SecTrustSettingsCopyTrustSettings c
      kSecTrustSettingsDomainSystem).1 = errSecItemNotFound <;>
  by_cases h2 : (S.SecTrustSettingsCopyTrustSettings c
      kSecTrustSettingsDomainAdmin).1 = errSecItemNotFound <;>
  by_cases h3 : (S.SecTrustSettingsCopyTrustSettings c
      kSecTrustSettingsDomainUser).1 = errSecItemNotFound <;>
    cases D <;> simp [h1, h2, h3, List.filter_cons, List.count_cons]

/-! ## Identity, key and certificate (C2, C3, C9) -/

theorem isTrustStep_not_deletion (e : Event) (h : e.isTrustStep = true) :
    e.isKeyDeletion = false ∧ e.isCertificateDeletion = false ∧
      e.isKeyExtraction = false := by
  cases e <;> simp_all [Event.isTrustStep, Event.isKeyDeletion,
    Event.isCertificateDeletion, Event.isKeyExtraction]

/-- Claim C9: when the identity derivation answers a status that is neither
success nor not-found, `deleteCertificate` returns false and, after the trust
settings, its trace holds the identity derivation alone: no key extraction, no
key deletion, no certificate deletion.  When the status is not-found, the
identity derivation is followed at once by the certificate deletion, with no
key extraction and no key deletion. -/
theorem deleteCertificate_identity_not_derived (S : Store)
    (c : SecCertificateRef) (s : OSStatus) (hs : s ≠ errSecSuccess)
    (hi : S.SecIdentityCreateWithCertificate c = .error s hs) :
    (s ≠ errSecItemNotFound →
      (deleteCertificate S c).1 = false ∧
      (deleteCertificate S c).2 = deleteTrustIfExists S c ++
        [Event.SecIdentityCreateWithCertificate c s none]) ∧
    (s = errSecItemNotFound →
      (deleteCertificate S c).2 = deleteTrustIfExists S c ++
        [Event.SecIdentityCreateWithCertificate c s none,
         Event.SecKeychainItemDelete (.certificate c)
           (S.SecKeychainItemDelete (.certificate c))]) ∧
    (∀ e ∈ (deleteCertificate S c).2,
      e.isKeyExtraction = false ∧ e.isKeyDeletion = false) ∧
    (s ≠ errSecItemNotFound →
      ∀ e ∈ (deleteCertificate S c).2, e.isCertificateDeletion = false) := by
  have ht := deleteTrustIfExists_isTrustStep S c
  by_cases hnf : s = errSecItemNotFound
  · subst hnf
    have hd := deleteKeyAndCertificate_no_identity S c hs hi
    have hdc : deleteCertificate S c =
        (decide (S.SecKeychainItemDelete (.certificate c) = errSecSuccess),
         deleteTrustIfExists S c ++
          [Event.SecIdentityCreateWithCertificate c errSecItemNotFound none,
           Event.SecKeychainItemDelete (.certificate c)
             (S.SecKeychainItemDelete (.certificate c))]) := by
      simp [deleteCertificate, hd]
    rw [hdc]
    refine ⟨fun h => absurd rfl h, fun _ => rfl, ?_, fun h => absurd rfl h⟩
    intro e he
    simp only [List.mem_append, List.mem_cons, List.mem_singleton,
      List.not_mem_nil, or_false] at he
    rcases he with he | he | he
    · exact ⟨(isTrustStep_not_deletion e (ht e he)).2.2,
        (isTrustStep_not_deletion e (ht e he)).1⟩
    · subst he; exact ⟨rfl, rfl⟩
    · subst he; exact ⟨rfl, rfl⟩
  · have hd := deleteKeyAndCertificate_identity_failed S c s hs hi hnf
    have hdc : deleteCertificate S c =
        (false, deleteTrustIfExists S c ++
          [Event.SecIdentityCreateWithCertificate c s none]) := by
      simp [deleteCertificate, hd]
    rw [hdc]
    refine ⟨fun _ => ⟨rfl, rfl⟩, fun h => absurd h hnf, ?_, fun _ => ?_⟩
    · intro e he
      simp only [List.mem_append, List.mem_singleton] at he
      rcases he with he | he
      · exact ⟨(isTrustStep_not_deletion e (ht e he)).2.2,
          (isTrustStep_not_deletion e (ht e he)).1⟩
      · subst he; exact ⟨rfl, rfl⟩
    · intro e he
      simp only [List.mem_append, List.mem_singleton] at he
      rcases he with he | he
      · exact (isTrustStep_not_deletion e (ht e he)).2.1
      · subst he; rfl

theorem not_keyDeletion_and_certificateDeletion (e : Event) :
    ¬ (e.isKeyDeletion = true ∧ e.isCertificateDeletion = true) := by
  cases e <;> simp [Event.isKeyDeletion, Event.isCertificateDeletion]
  rename_i item status
  cases item <;> simp

/-- In the trace of `deleteCertificate`, no key deletion comes after a
certificate deletion. -/
theorem deleteCertificate_pairwise (S : Store) (c : SecCertificateRef) :
    List.Pairwise
      (fun a b => a.isCertificateDeletion = true → b.isKeyDeletion = false)
      (deleteCertificate S c).2 := by
  have ht := deleteTrustIfExists_isTrustStep S c
  have happ : ∀ tail : List Event,
      List.Pairwise (fun a b : Event =>
        a.isCertificateDeletion = true → b.isKeyDeletion = false) tail →
      List.Pairwise (fun a b : Event =>
        a.isCertificateDeletion = true → b.isKeyDeletion = false)
        (deleteTrustIfExists S c ++ tail) := by
    intro tail htail
    rw [List.pairwise_append]
    refine ⟨?_, htail, ?_⟩
    · apply List.Pairwise.imp_of_mem (R := fun _ _ => True)
      · intro a b ha _ _ hdel
        rw [(isTrustStep_not_deletion a (ht a ha)).2.1] at hdel
        cases hdel
      · exact List.pairwise_of_forall (fun _ _ => trivial)
    · intro a ha b _ hdel
      rw [(isTrustStep_not_deletion a (ht a ha)).2.1] at hdel
      cases hdel
  simp only [deleteCertificate]
  apply happ
  cases hi : S.SecIdentityCreateWithCertificate c with
  | error s hs =>
    by_cases hnf : s = errSecItemNotFound
    · subst hnf
      rw [deleteKeyAndCertificate_no_identity S c hs hi]
      simp [Event.isKeyDeletion, Event.isCertificateDeletion]
    · rw [deleteKeyAndCertificate_identity_failed S c s hs hi hnf]
      simp
  | ok i =>
    cases hk : S.SecIdentityCopyPrivateKey i with
    | error s hs =>
      rw [deleteKeyAndCertificate_no_key S c i s hs hi hk]
      simp [Event.isKeyDeletion, Event.isCertificateDeletion]
    | ok k =>
      by_cases hkd : S.SecKeychainItemDelete (.key k) = errSecSuccess
      · rw [deleteKeyAndCertificate_key_deleted S c i k hi hk hkd]
        simp [Event.isKeyDeletion, Event.isCertificateDeletion]
      · rw [deleteKeyAndCertificate_key_failed S c i k hi hk hkd]
        simp [Event.isKeyDeletion, Event.isCertificateDeletion]

/-- After a failed key deletion `deleteCertificate` returns false and its
trace holds no certificate deletion. -/
theorem deleteCertificate_key_deletion_failed (S : Store)
    (c : SecCertificateRef)
    (hf : ∃ e ∈ (deleteCertificate S c).2, e.isFailedKeyDeletion = true) :
    (deleteCertificate S c).1 = false ∧
      ∀ e ∈ (deleteCertificate S c).2, e.isCertificateDeletion = false := by
  have ht := deleteTrustIfExists_isTrustStep S c
  have htf : ∀ e ∈ deleteTrustIfExists S c, e.isFailedKeyDeletion = false := by
    intro e he
    have := ht e he
    cases e <;> simp_all [Event.isTrustStep, Event.isFailedKeyDeletion]
  have htc : ∀ e ∈ deleteTrustIfExists S c, e.isCertificateDeletion = false :=
    fun e he => (isTrustStep_not_deletion e (ht e he)).2.1
  obtain ⟨e, he, hfe⟩ := hf
  simp only [deleteCertificate, List.mem_append] at he ⊢
  have hek : e ∈ (deleteKeyAndCertificate S c).2 := by
    rcases he with he | he
    · rw [htf e he] at hfe; cases hfe
    · exact he
  clear he
  cases hi : S.SecIdentityCreateWithCertificate c with
  | error s hs =>
    by_cases hnf : s = errSecItemNotFound
    · subst hnf
      rw [deleteKeyAndCertificate_no_identity S c hs hi] at hek
      simp at hek
      rcases hek with h | h <;> subst h <;>
        simp [Event.isFailedKeyDeletion] at hfe
    · rw [deleteKeyAndCertificate_identity_failed S c s hs hi hnf] at hek
      simp at hek
      subst hek
      simp [Event.isFailedKeyDeletion] at hfe
  | ok i =>
    cases hk : S.SecIdentityCopyPrivateKey i with
    | error s hs =>
      rw [deleteKeyAndCertificate_no_key S c i s hs hi hk] at hek
      simp at hek
      rcases hek with h | h | h | h <;> subst h <;>
        simp [Event.isFailedKeyDeletion] at hfe
    | ok k =>
      by_cases hkd : S.SecKeychainItemDelete (.key k) = errSecSuccess
      · rw [deleteKeyAndCertificate_key_deleted S c i k hi hk hkd] at hek
        simp at hek
        rcases hek with h | h | h | h | h | h <;> subst h <;>
          simp [Event.isFailedKeyDeletion] at hfe
      · rw [deleteKeyAndCertificate_key_failed S c i k hi hk hkd]
        refine ⟨rfl, ?_⟩
        intro e' he'
        rcases he' with he' | he'
        · exact htc e' he'
        · simp at he'
          rcases he' with h | h | h | h | h <;> subst h <;>
            simp [Event.isCertificateDeletion]

/-- Claim C2: in every run of `deleteCertificate`, whatever the store
answers, every private-key deletion attempt sits at a strictly smaller
position of the trace than every certificate deletion attempt; and when a key
deletion answers a failure status, the trace holds no certificate deletion,
`deleteCertificate` returns false, and a `main` that resolved this
certificate exits 1. -/
theorem deleteCertificate_key_before_certificate (S : Store)
    (c : SecCertificateRef) :
    (∀ (i j : Nat) (hi : i < (deleteCertificate S c).2.length)
        (hj : j < (deleteCertificate S c).2.length),
      ((deleteCertificate S c).2.get ⟨i, hi⟩).isKeyDeletion = true →
      ((deleteCertificate S c).2.get ⟨j, hj⟩).isCertificateDeletion = true →
      i < j) ∧
    ((∃ e ∈ (deleteCertificate S c).2, e.isFailedKeyDeletion = true) →
      (∀ e ∈ (deleteCertificate S c).2, e.isCertificateDeletion = false) ∧
      (deleteCertificate S c).1 = false ∧
      ∀ prog label, S.SecItemCopyMatching label = .ok (.certificate c) →
        (main S [prog, label]).1 = 1) := by
  constructor
  · intro i j hi hj hkey hcert
    by_contra hlt
    rcases Nat.lt_or_ge j i with hji | hji
    · have hp := List.pairwise_iff_getElem.1 (deleteCertificate_pairwise S c)
        j i hj hi hji
      simp only [List.get_eq_getElem] at hkey hcert
      rw [hp hcert] at hkey
      cases hkey
    · have hij : i = j := by omega
      subst hij
      exact not_keyDeletion_and_certificateDeletion _ ⟨hkey, hcert⟩
  · intro hf
    obtain ⟨hres, hno⟩ := deleteCertificate_key_deletion_failed S c hf
    refine ⟨hno, hres, ?_⟩
    intro prog label hc
    rw [main_resolved S prog label c hc]
    simp [hres]

theorem deleteTrustIfExists_no_removalCall (S : Store) (c : SecCertificateRef) :
    (deleteTrustIfExists S c).filter Event.isRemovalCall = [] := by
  rw [List.filter_eq_nil_iff]
  intro e he
  have := deleteTrustIfExists_isTrustStep S c e he
  cases e <;> simp_all [Event.isTrustStep, Event.isRemovalCall]

/-- Claim C6: two stores that answer the identity derivation, the key
extraction and the deletions alike, and differ at will in what they answer to
the trust-settings queries and removals, give `deleteCertificate` on the same
certificate the same result and the same sequence of identity, key and
deletion calls; a `main` that gets the same lookup answer from both exits
with the same code. -/
theorem deleteCertificate_trust_not_fatal (S₁ S₂ : Store)
    (c : SecCertificateRef)
    (hI : S₁.SecIdentityCreateWithCertificate =
      S₂.SecIdentityCreateWithCertificate)
    (hK : S₁.SecIdentityCopyPrivateKey = S₂.SecIdentityCopyPrivateKey)
    (hD : S₁.SecKeychainItemDelete = S₂.SecKeychainItemDelete) :
    (deleteCertificate S₁ c).1 = (deleteCertificate S₂ c).1 ∧
    (deleteCertificate S₁ c).2.filter Event.isRemovalCall =
      (deleteCertificate S₂ c).2.filter Event.isRemovalCall ∧
    ∀ prog label,
      S₁.SecItemCopyMatching label = .ok (.certificate c) →
      S₂.SecItemCopyMatching label = .ok (.certificate c) →
      (main S₁ [prog, label]).1 = (main S₂ [prog, label]).1 := by
  have hsame : deleteKeyAndCertificate S₁ c = deleteKeyAndCertificate S₂ c := by
    simp only [deleteKeyAndCertificate, deleteCertificateItself, hI, hK, hD]
  have hres : (deleteCertificate S₁ c).1 = (deleteCertificate S₂ c).1 := by
    simp only [deleteCertificate, hsame]
  refine ⟨hres, ?_, ?_⟩
  · simp only [deleteCertificate, List.filter_append,
      deleteTrustIfExists_no_removalCall, hsame]
  · intro prog label h1 h2
    rw [main_resolved S₁ prog label c h1, main_resolved S₂ prog label c h2, hres]

/-- Claim C6 at `storeWithKey` and `storeWithKeyTrustFailing`, whose trust
answers differ: same result. -/
theorem deleteCertificate_trust_not_fatal_witness :
    storeWithKey.SecTrustSettingsCopyTrustSettings testCert
        kSecTrustSettingsDomainAdmin ≠
      storeWithKeyTrustFailing.SecTrustSettingsCopyTrustSettings testCert
        kSecTrustSettingsDomainAdmin ∧
    (deleteCertificate storeWithKey testCert).1 =
      (deleteCertificate storeWithKeyTrustFailing testCert).1 ∧
    (deleteCertificate storeWithKey testCert).2.filter Event.isRemovalCall =
      (deleteCertificate storeWithKeyTrustFailing testCert).2.filter
        Event.isRemovalCall :=
  ⟨by decide,
   (deleteCertificate_trust_not_fatal storeWithKey storeWithKeyTrustFailing
      testCert rfl rfl rfl).1,
   (deleteCertificate_trust_not_fatal storeWithKey storeWithKeyTrustFailing
      testCert rfl rfl rfl).2.1⟩

/-- Counterexample to C8 as stated: `storeReadOnly` holds the certificate
with no trust settings in any domain and no private key, and `main` exits 1,
because the certificate deletion answers `errSecWrPerm`. -/
theorem bare_certificate_not_deletable :
    storeReadOnly.SecItemCopyMatching "TestCert" = .ok (.certificate testCert) ∧
    (∀ D, (storeReadOnly.SecTrustSettingsCopyTrustSettings testCert D).1 =
      errSecItemNotFound) ∧
    (storeReadOnly.SecIdentityCreateWithCertificate testCert).status =
      errSecItemNotFound ∧
    main storeReadOnly ["keychain-cleaner", "TestCert"] =
      (1,
       [Event.SecItemCopyMatching "TestCert" errSecSuccess
          (some (.certificate testCert)),
        Event.SecTrustSettingsCopyTrustSettings testCert
          kSecTrustSettingsDomainSystem errSecItemNotFound none,
        Event.SecTrustSettingsCopyTrustSettings testCert
          kSecTrustSettingsDomainAdmin errSecItemNotFound none,
        Event.SecTrustSettingsCopyTrustSettings testCert
          kSecTrustSettingsDomainUser errSecItemNotFound none,
        Event.SecIdentityCreateWithCertificate testCert errSecItemNotFound
          none,
        Event.SecKeychainItemDelete (.certificate testCert) errSecWrPerm,
        Event.CFRelease (.certificate testCert)]) ∧
    (main storeReadOnly ["keychain-cleaner", "TestCert"]).1 ≠ 0 := by
  refine ⟨rfl, ?_, rfl, by decide, by decide⟩
  intro D; rfl

/-! ## A certificate with no trust settings and no key (C8) -/

theorem deleteTrustIfExists_no_removal (S : Store) (c : SecCertificateRef)
    (htrust : ∀ D,
      (S.SecTrustSettingsCopyTrustSettings c D).1 = errSecItemNotFound) :
    (deleteTrustIfExists S c).filter Event.isTrustRemoval = [] := by
  have hrem := deleteTrustIfExists_removed S c
  simp only [htrust, ne_eq, not_true_eq_false, decide_False,
    List.filter_cons, List.filter_nil] at hrem
  rw [List.filter_eq_nil_iff]
  intro e he
  have hnone : Event.removedDomain e = none := by
    have := List.filterMap_eq_nil_iff.1 (by simpa using hrem) e he
    exact this
  cases e <;> simp_all [Event.removedDomain, Event.isTrustRemoval]

/-- Claim C8, amended: when the label matches a certificate with no trust
settings in any domain (every query answers not-found) and no private key
(the identity derivation answers not-found), `main` queries the trust
settings of the three domains, attempts no trust-settings removal, no key
extraction and no key deletion, and attempts the certificate deletion once;
it exits 0 exactly when that deletion answers success, and 1 otherwise. -/
theorem main_bare_certificate (S : Store) (prog label : String)
    (c : SecCertificateRef)
    (hc : S.SecItemCopyMatching label = .ok (.certificate c))
    (htrust : ∀ D,
      (S.SecTrustSettingsCopyTrustSettings c D).1 = errSecItemNotFound)
    (hid : (S.SecIdentityCreateWithCertificate c).status = errSecItemNotFound) :
    ((main S [prog, label]).1 =
      if S.SecKeychainItemDelete (.certificate c) = errSecSuccess
      then 0 else 1) ∧
    (main S [prog, label]).2.filterMap Event.queriedDomain =
      [kSecTrustSettingsDomainSystem, kSecTrustSettingsDomainAdmin,
       kSecTrustSettingsDomainUser] ∧
    (main S [prog, label]).2.filter Event.isTrustRemoval = [] ∧
    (main S [prog, label]).2.filter Event.isKeyExtraction = [] ∧
    (main S [prog, label]).2.filter Event.isKeyDeletion = [] ∧
    (main S [prog, label]).2.filter Event.isCertificateDeletion =
      [Event.SecKeychainItemDelete (.certificate c)
        (S.SecKeychainItemDelete (.certificate c))] := by
  have hkc : deleteKeyAndCertificate S c =
      (decide (S.SecKeychainItemDelete (.certificate c) = errSecSuccess),
       [Event.SecIdentityCreateWithCertificate c errSecItemNotFound none,
        Event.SecKeychainItemDelete (.certificate c)
          (S.SecKeychainItemDelete (.certificate c))]) := by
    cases hi : S.SecIdentityCreateWithCertificate c with
    | ok i =>
      rw [hi] at hid
      simp [Reply.status, errSecSuccess, errSecItemNotFound] at hid
    | error s hs =>
      rw [hi] at hid
      simp only [Reply.status] at hid
      subst hid
      exact deleteKeyAndCertificate_no_identity S c hs hi
  have hq := deleteTrustIfExists_queried S c
  have hr := deleteTrustIfExists_no_removal S c htrust
  have hx := deleteTrustIfExists_filter_nil S c Event.isKeyExtraction
    (fun e he => (isTrustStep_not_deletion e he).2.2)
  have hk := deleteTrustIfExists_filter_nil S c Event.isKeyDeletion
    (fun e he => (isTrustStep_not_deletion e he).1)
  have hd := deleteTrustIfExists_filter_nil S c Event.isCertificateDeletion
    (fun e he => (isTrustStep_not_deletion e he).2.1)
  rw [main_resolved S prog label c hc]
  simp only [deleteCertificate, hkc]
  refine ⟨?_, ?_, ?_, ?_, ?_, ?_⟩
  · by_cases hdel : S.SecKeychainItemDelete (.certificate c) = errSecSuccess <;>
      simp [hdel]
  · simp [List.filterMap_cons, List.filterMap_append, hq, Event.queriedDomain]
  · simp [List.filter_cons, List.filter_append, hr, Event.isTrustRemoval]
  · simp [List.filter_cons, List.filter_append, hx, Event.isKeyExtraction]
  · simp [List.filter_cons, List.filter_append, hk, Event.isKeyDeletion]
  · simp [List.filter_cons, List.filter_append, hd, Event.isCertificateDeletion]

/-- The amended C8 at `storeBareCertificate`: the deletion succeeds and `main`
exits 0. -/
theorem main_bare_certificate_witness :
    storeBareCertificate.SecKeychainItemDelete (.certificate testCert) =
      errSecSuccess ∧
    (main storeBareCertificate ["keychain-cleaner", "TestCert"]).1 = 0 ∧
    (main storeBareCertificate ["keychain-cleaner", "TestCert"]).2.filter
        Event.isCertificateDeletion =
      [Event.SecKeychainItemDelete (.certificate testCert) errSecSuccess] :=
  ⟨rfl,
   (main_bare_certificate storeBareCertificate "keychain-cleaner" "TestCert"
      testCert rfl (fun _ => rfl) rfl).1,
   (main_bare_certificate storeBareCertificate "keychain-cleaner" "TestCert"
      testCert rfl (fun _ => rfl) rfl).2.2.2.2.2⟩

/-! ## Release of the references the store hands back (C10) -/

/-- Claim C10, the failing run: on `storeWrongType` the lookup answers
success with an item that is not a certificate; `main` exits 0 after the
lookup alone, so the item the store handed back is never released. -/
theorem lookup_item_not_released :
    main storeWrongType ["keychain-cleaner", "TestCert"] =
      (0, [Event.SecItemCopyMatching "TestCert" errSecSuccess
            (some (.key ⟨9⟩))]) ∧
    (main storeWrongType ["keychain-cleaner", "TestCert"]).2.filterMap
      Event.returned = [.key ⟨9⟩] ∧
    (main storeWrongType ["keychain-cleaner", "TestCert"]).2.filterMap
      Event.released = [] := by
  refine ⟨by decide, by decide, by decide⟩

theorem deleteTrustIfExistsBody_released (S : Store) (c : SecCertificateRef)
    (d : SecTrustSettingsDomain) :
    (deleteTrustIfExistsBody S c d).filterMap Event.released =
      (deleteTrustIfExistsBody S c d).filterMap Event.returned := by
  unfold deleteTrustIfExistsBody
  rcases hq : S.SecTrustSettingsCopyTrustSettings c d with ⟨status, arr⟩
  cases arr <;> by_cases hs : status = errSecItemNotFound <;>
    simp [hs, List.filterMap_cons, Event.released, Event.returned]

theorem deleteTrustIfExists_released (S : Store) (c : SecCertificateRef) :
    (deleteTrustIfExists S c).filterMap Event.released =
      (deleteTrustIfExists S c).filterMap Event.returned := by
  simp [deleteTrustIfExists, domains, deleteTrustIfExistsLoop,
    List.filterMap_append, deleteTrustIfExistsBody_released]

theorem deleteKeyAndCertificate_released (S : Store) (c : SecCertificateRef) :
    (deleteKeyAndCertificate S c).2.filterMap Event.released =
      (deleteKeyAndCertificate S c).2.filterMap Event.returned := by
  cases hi : S.SecIdentityCreateWithCertificate c with
  | error s hs =>
    by_cases hnf : s = errSecItemNotFound
    · subst hnf
      rw [deleteKeyAndCertificate_no_identity S c hs hi]
      simp [List.filterMap_cons, Event.released, Event.returned]
    · rw [deleteKeyAndCertificate_identity_failed S c s hs hi hnf]
      simp [List.filterMap_cons, Event.released, Event.returned]
  | ok i =>
    cases hk : S.SecIdentityCopyPrivateKey i with
    | error s hs =>
      rw [deleteKeyAndCertificate_no_key S c i s hs hi hk]
      simp [List.filterMap_cons, Event.released, Event.returned]
    | ok k =>
      by_cases hkd : S.SecKeychainItemDelete (.key k) = errSecSuccess
      · rw [deleteKeyAndCertificate_key_deleted S c i k hi hk hkd]
        simp [List.filterMap_cons, Event.released, Event.returned]
      · rw [deleteKeyAndCertificate_key_failed S c i k hi hk hkd]
        simp [List.filterMap_cons, Event.released, Event.returned]

/-- The part of C10 the code keeps: in a run with one label argument whose
lookup does not answer an item of another type than certificate, the
references released are, each as many times as it was handed back, the
references the store handed back. -/
theorem main_releases_what_was_returned (S : Store) (prog label : String)
    (htype : ∀ item, S.SecItemCopyMatching label = .ok item →
      ∃ c, item = .certificate c) :
    List.Perm ((main S [prog, label]).2.filterMap Event.released)
      ((main S [prog, label]).2.filterMap Event.returned) := by
  cases hr : S.SecItemCopyMatching label with
  | error s hs =>
    have hc : ∀ c, S.SecItemCopyMatching label ≠ .ok (.certificate c) := by
      intro c h; rw [hr] at h; cases h
    rw [main_unresolved S prog label hc, hr]
    simp [List.filterMap_cons, Event.released, Event.returned, Reply.out]
  | ok item =>
    obtain ⟨c, rfl⟩ := htype item hr
    rw [main_resolved S prog label c hr]
    simp only [deleteCertificate, List.filterMap_cons, List.filterMap_append,
      Event.released, Event.returned, List.filterMap_nil,
      deleteTrustIfExists_released, deleteKeyAndCertificate_released]
    rw [List.append_nil]
    exact List.perm_append_singleton _ _

/-- The kept part of C10 at `storeWithKey`. -/
theorem main_releases_what_was_returned_witness :
    List.Perm
      ((main storeWithKey ["keychain-cleaner", "TestCert"]).2.filterMap
        Event.released)
      ((main storeWithKey ["keychain-cleaner", "TestCert"]).2.filterMap
        Event.returned) :=
  main_releases_what_was_returned storeWithKey "keychain-cleaner" "TestCert"
    (fun _ h => ⟨testCert, (Reply.ok.inj h).symm⟩)

/-! ## The claims at concrete stores -/

/-- Claim C1 at `storeKeyUndeletable`: the certificate is resolved, the key
deletion fails, and the exit code is 1. -/
theorem main_exit_code_witness :
    (main storeKeyUndeletable ["keychain-cleaner", "TestCert"]).1 = 1 :=
  (main_exit_code storeKeyUndeletable "keychain-cleaner" "TestCert").2.2.2.2
    ⟨testCert, by decide, by decide⟩

/-- Claim C2 at `storeKeyUndeletable`: the key deletion fails, no certificate
deletion follows, `deleteCertificate` returns false and `main` exits 1. -/
theorem deleteCertificate_key_before_certificate_witness :
    (∃ e ∈ (deleteCertificate storeKeyUndeletable testCert).2,
      e.isFailedKeyDeletion = true) ∧
    (∀ e ∈ (deleteCertificate storeKeyUndeletable testCert).2,
      e.isCertificateDeletion = false) ∧
    (deleteCertificate storeKeyUndeletable testCert).1 = false ∧
    (main storeKeyUndeletable ["keychain-cleaner", "TestCert"]).1 = 1 :=
  have h := (deleteCertificate_key_before_certificate storeKeyUndeletable
    testCert).2 (by decide)
  ⟨by decide, h.1, h.2.1, h.2.2 "keychain-cleaner" "TestCert" rfl⟩

/-- Claim C4 at `storeWrongType`, whose lookup answers an item that is not a
certificate. -/
theorem main_lookup_unresolved_witness :
    (main storeWrongType ["keychain-cleaner", "TestCert"]).1 = 0 ∧
    ∀ e ∈ (main storeWrongType ["keychain-cleaner", "TestCert"]).2,
      e.isMutation = false :=
  have h := main_lookup_unresolved storeWrongType "keychain-cleaner" "TestCert"
    (Or.inr (Or.inr ⟨.key ⟨9⟩, rfl, by intro c h; cases h⟩))
  ⟨h.1, h.2.2⟩

/-- Claim C7 with no label argument and with two. -/
theorem main_wrong_argument_count_witness :
    main storeWithKey ["keychain-cleaner"] = (1, []) ∧
    main storeWithKey ["keychain-cleaner", "TestCert", "Other"] = (1, []) :=
  ⟨main_wrong_argument_count storeWithKey ["keychain-cleaner"] (by decide),
   main_wrong_argument_count storeWithKey
     ["keychain-cleaner", "TestCert", "Other"] (by decide)⟩

/-- Claim C9 at `storeIdentityFailing`, whose identity derivation answers
`-50`. -/
theorem deleteCertificate_identity_not_derived_witness :
    (deleteCertificate storeIdentityFailing testCert).1 = false ∧
    ∀ e ∈ (deleteCertificate storeIdentityFailing testCert).2,
      e.isCertificateDeletion = false :=
  have h := deleteCertificate_identity_not_derived storeIdentityFailing
    testCert (-50) (by decide) rfl
  ⟨(h.1 (by decide)).1, h.2.2.2 (by decide)⟩

end KeychainCleaner
